import Mathlib

/-!
Verification of the Tencent translation client
(`src/open_llm_vtuber/translate/tencent.py`): a shallow embedding of the
TC3-HMAC-SHA256 request-signing pipeline, header assembly, and response
handling, with theorems checking the documented properties.

Bytes are `Nat` values below 256, byte strings are `List Nat`, and 32-bit
words are `Nat` values reduced modulo `2 ^ 32` wherever overflow matters.
-/

/-- The modulus of 32-bit words, `2 ^ 32`. -/
def w32 : Nat := 4294967296

/-- The all-ones 32-bit mask, `2 ^ 32 - 1`. -/
def mask32 : Nat := 4294967295

/-- Addition modulo `2 ^ 32`. -/
def add32 (a b : Nat) : Nat := (a + b) % w32

/-- Rotate a 32-bit word right by `n` bits. -/
def rotr32 (n x : Nat) : Nat :=
  Nat.lor (Nat.shiftRight x n) (Nat.land (Nat.shiftLeft x (32 - n)) mask32)

/-- SHA-256 `Ch` function. -/
def ch32 (e f g : Nat) : Nat :=
  Nat.xor (Nat.land e f) (Nat.land (Nat.xor e mask32) g)

/-- SHA-256 `Maj` function. -/
def maj32 (a b c : Nat) : Nat :=
  Nat.xor (Nat.xor (Nat.land a b) (Nat.land a c)) (Nat.land b c)

/-- SHA-256 big Sigma-0. -/
def bigS0 (x : Nat) : Nat := Nat.xor (Nat.xor (rotr32 2 x) (rotr32 13 x)) (rotr32 22 x)

/-- SHA-256 big Sigma-1. -/
def bigS1 (x : Nat) : Nat := Nat.xor (Nat.xor (rotr32 6 x) (rotr32 11 x)) (rotr32 25 x)

/-- SHA-256 small sigma-0. -/
def smallS0 (x : Nat) : Nat :=
  Nat.xor (Nat.xor (rotr32 7 x) (rotr32 18 x)) (Nat.shiftRight x 3)

/-- SHA-256 small sigma-1. -/
def smallS1 (x : Nat) : Nat :=
  Nat.xor (Nat.xor (rotr32 17 x) (rotr32 19 x)) (Nat.shiftRight x 10)

/-- The 64 SHA-256 round constants. -/
def shaK : List Nat :=
  [1116352408, 1899447441, 3049323471, 3921009573, 961987163, 1508970993,
   2453635748, 2870763221, 3624381080, 310598401, 607225278, 1426881987,
   1925078388, 2162078206, 2614888103, 3248222580, 3835390401, 4022224774,
   264347078, 604807628, 770255983, 1249150122, 1555081692, 1996064986,
   2554220882, 2821834349, 2952996808, 3210313671, 3336571891, 3584528711,
   113926993, 338241895, 666307205, 773529912, 1294757372, 1396182291,
   1695183700, 1986661051, 2177026350, 2456956037, 2730485921, 2820302411,
   3259730800, 3345764771, 3516065817, 3600352804, 4094571909, 275423344,
   430227734, 506948616, 659060556, 883997877, 958139571, 1322822218,
   1537002063, 1747873779, 1955562222, 2024104815, 2227730452, 2361852424,
   2428436474, 2756734187, 3204031479, 3329325298]

/-- The SHA-256 initial hash state. -/
def shaH0 : List Nat :=
  [1779033703, 3144134277, 1013904242, 2773480762,
   1359893119, 2600822924, 528734635, 1541459225]

/-- Group a byte list into big-endian 32-bit words, four bytes per word. -/
def bytesToWords : List Nat → List Nat
  | b0 :: b1 :: b2 :: b3 :: rest =>
      (((b0 * 256 + b1) * 256 + b2) * 256 + b3) :: bytesToWords rest
  | _ => []

/-- Big-endian byte rendering of `v` in exactly `n` bytes. -/
def beBytes : Nat → Nat → List Nat
  | 0, _ => []
  | n + 1, v => beBytes n (v / 256) ++ [v % 256]

/-- Extend the 16-word message schedule by `n` further words. -/
def extendW (w : List Nat) : Nat → List Nat
  | 0 => w
  | n + 1 =>
      let i := w.length
      extendW
        (w ++ [add32
          (add32 (smallS1 (w.getD (i - 2) 0)) (w.getD (i - 7) 0))
          (add32 (smallS0 (w.getD (i - 15) 0)) (w.getD (i - 16) 0))]) n

/-- One SHA-256 compression round: the state is the word list
`[a, b, c, d, e, f, g, h]` and `kw` pairs the round constant with the
scheduled word. -/
def sha256Round (st : List Nat) (kw : Nat × Nat) : List Nat :=
  match st with
  | [a, b, c, d, e, f, g, h] =>
      let t1 := add32 (add32 (add32 h (bigS1 e)) (add32 (ch32 e f g) kw.fst)) kw.snd
      let t2 := add32 (bigS0 a) (maj32 a b c)
      [add32 t1 t2, a, b, c, add32 d t1, e, f, g]
  | other => other

/-- Compress one 64-byte block into the running hash state. -/
def sha256Compress (h : List Nat) (block : List Nat) : List Nat :=
  let w := extendW (bytesToWords block) 48
  let st := (shaK.zip w).foldl sha256Round h
  List.zipWith add32 h st

/-- Fold the compression function over `n` successive 64-byte blocks. -/
def sha256Blocks (h : List Nat) (msg : List Nat) : Nat → List Nat
  | 0 => h
  | n + 1 => sha256Blocks (sha256Compress h (msg.take 64)) (msg.drop 64) n

/-- SHA-256 padding: append `0x80`, zeros up to 56 mod 64, then the 64-bit
big-endian bit length. -/
def sha256Pad (msg : List Nat) : List Nat :=
  msg ++ [128] ++ List.replicate ((119 - msg.length % 64) % 64) 0
      ++ beBytes 8 (8 * msg.length)

/-- The SHA-256 digest of a byte list, as 32 bytes. -/
def sha256 (msg : List Nat) : List Nat :=
  let padded := sha256Pad msg
  ((sha256Blocks shaH0 padded (padded.length / 64)).map (beBytes 4)).flatten

/-- A lowercase hexadecimal digit character. -/
def hexDigit (n : Nat) : Char :=
  if n < 10 then Char.ofNat (48 + n) else Char.ofNat (87 + n)

/-- Lowercase hex rendering of a byte list, two digits per byte. -/
def toHex (bytes : List Nat) : String :=
  String.join (bytes.map (fun b => String.mk [hexDigit (b / 16), hexDigit (b % 16)]))

/-- Python `hashlib.sha256(...).hexdigest()`: the lowercase hex SHA-256 digest. -/
def sha256Hex (msg : List Nat) : String := toHex (sha256 msg)

/-- HMAC-SHA256 with a raw-byte key and raw-byte message
(`hmac.new(key, msg, hashlib.sha256).digest()`). -/
def hmacSha256 (key msg : List Nat) : List Nat :=
  let k0 := if 64 < key.length then sha256 key else key
  let kp := k0 ++ List.replicate (64 - k0.length) 0
  sha256 ((kp.map (Nat.xor 92)) ++ sha256 ((kp.map (Nat.xor 54)) ++ msg))

/-- Python `hmac.new(key, msg, hashlib.sha256).hexdigest()`. -/
def hmacSha256Hex (key msg : List Nat) : String := toHex (hmacSha256 key msg)

/-- UTF-8 encoding of one character, as bytes. -/
def utf8EncodeChar (c : Char) : List Nat :=
  let n := c.toNat
  if n < 128 then [n]
  else if n < 2048 then
    [192 + n / 64, 128 + n % 64]
  else if n < 65536 then
    [224 + n / 4096, 128 + n / 64 % 64, 128 + n % 64]
  else
    [240 + n / 262144, 128 + n / 4096 % 64, 128 + n / 64 % 64, 128 + n % 64]

/-- Python `s.encode("utf-8")`: the UTF-8 bytes of a string. -/
def utf8Bytes (s : String) : List Nat := (s.data.map utf8EncodeChar).flatten

/-- The calendar date `(year, month, day)` of a day count since 1970-01-01
(proleptic Gregorian, the civil-from-days algorithm). -/
def civilFromDays (days : Nat) : Nat × Nat × Nat :=
  let z := days + 719468
  let era := z / 146097
  let doe := z % 146097
  let yoe := (doe - doe / 1460 + doe / 36524 - doe / 146096) / 365
  let y := yoe + era * 400
  let doy := doe - (365 * yoe + yoe / 4 - yoe / 100)
  let mp := (5 * doy + 2) / 153
  let d := doy - (153 * mp + 2) / 5 + 1
  let m := if mp < 10 then mp + 3 else mp - 9
  (if m ≤ 2 then y + 1 else y, m, d)

/-- Zero-padded two-digit decimal rendering. -/
def pad2 (n : Nat) : String := if n < 10 then "0" ++ toString n else toString n

/-- Python `datetime.fromtimestamp(ts, timezone.utc).strftime("%Y-%m-%d")`: the UTC
calendar date of a Unix timestamp, formatted `YYYY-MM-DD`. -/
def utcDateString (ts : Nat) : String :=
  match civilFromDays (ts / 86400) with
  | (y, m, d) => toString y ++ "-" ++ pad2 m ++ "-" ++ pad2 d

/-- A parsed JSON value, as `response.json()` can produce. -/
inductive Json where
  | null : Json
  | bool : Bool → Json
  | num : Int → Json
  | str : String → Json
  | arr : List Json → Json
  | obj : List (String × Json) → Json

/-- An exception escaping the `try` block of `translate`: a transport or
JSON-decode failure raised by `httpx.post` / `response.json()`, or an
`AttributeError` from calling `.get` on a non-dict value. -/
inductive PyErr where
  | attributeError : String → PyErr
  | httpError : String → PyErr
  | jsonDecodeError : String → PyErr
deriving DecidableEq

/-- The Python type name of a JSON value, as it appears in an
`AttributeError` message. -/
def Json.pyTypeName : Json → String
  | Json.null => "NoneType"
  | Json.bool _ => "bool"
  | Json.num _ => "int"
  | Json.str _ => "str"
  | Json.arr _ => "list"
  | Json.obj _ => "dict"

/-- Python `v.get(key, default)`: on a dict, the value at `key` or the
default; on any other value, an `AttributeError` (no `.get` attribute). -/
def pyGet (v : Json) (key : String) (dflt : Json) : Except PyErr Json :=
  match v with
  | Json.obj fields => Except.ok ((fields.lookup key).getD dflt)
  | other => Except.error (PyErr.attributeError other.pyTypeName)

/-- The extraction step of `translate`: get `"Response"` from the parsed
body with an empty-dict default, then get `"TargetText"` from that with the
default `"Translation failed"`. -/
def extractTargetText (res : Json) : Except PyErr Json :=
  match pyGet res "Response" (Json.obj []) with
  | Except.error e => Except.error e
  | Except.ok r => pyGet r "TargetText" (Json.str "Translation failed")

/-- A record emitted through the logger: `logger.info(f"Request successful:
{res}")` or `logger.critical(f"API call error: {e}")`. -/
inductive LogEvent where
  | info : Json → LogEvent
  | critical : PyErr → LogEvent

/-- One escaped character of Python `json.dumps` output (default options:
`ensure_ascii=True`, so everything outside printable ASCII becomes a
`\uXXXX` escape, with surrogate pairs beyond the BMP). -/
def jsonEscapeChar (c : Char) : String :=
  let hex4 := fun (n : Nat) => String.mk
    [hexDigit (n / 4096 % 16), hexDigit (n / 256 % 16),
     hexDigit (n / 16 % 16), hexDigit (n % 16)]
  if c = Char.ofNat 34 then "\\\""
  else if c = Char.ofNat 92 then "\\\\"
  else if c.toNat = 8 then "\\b"
  else if c.toNat = 9 then "\\t"
  else if c.toNat = 10 then "\\n"
  else if c.toNat = 12 then "\\f"
  else if c.toNat = 13 then "\\r"
  else if 32 ≤ c.toNat ∧ c.toNat ≤ 126 then String.mk [c]
  else if c.toNat < 65536 then "\\u" ++ hex4 c.toNat
  else
    "\\u" ++ hex4 (55296 + (c.toNat - 65536) / 1024)
      ++ "\\u" ++ hex4 (56320 + (c.toNat - 65536) % 1024)

/-- A Python `json.dumps` string literal: quoted, characters escaped. -/
def pyJsonString (s : String) : String :=
  "\"" ++ String.join (s.data.map jsonEscapeChar) ++ "\""

/-- Python `sep.join(parts)`: the parts concatenated with `sep` between
consecutive parts. -/
def joinWith (sep : String) : List String → String
  | [] => ""
  | a :: as => as.foldl (fun acc x => acc ++ sep ++ x) a

/-- The state of a `TencentTranslate` instance: the six constructor
arguments plus the protocol constants `__init__` assigns. -/
structure TencentTranslate where
  secret_id : String
  secret_key : String
  token : String
  region : String
  service : String
  host : String
  version : String
  action : String
  algorithm : String
  source_lang : String
  target_lang : String

/-- The constructor `TencentTranslate.__init__`: stores the credentials and fixes
`service = "tmt"`, `host = "tmt.tencentcloudapi.com"`,
`version = "2018-03-21"`, `action = "TextTranslate"`,
`algorithm = "TC3-HMAC-SHA256"`. -/
def TencentTranslate.init
    (secret_id secret_key token region source_lang target_lang : String) :
    TencentTranslate :=
  ⟨secret_id, secret_key, token, region, "tmt", "tmt.tencentcloudapi.com",
   "2018-03-21", "TextTranslate", "TC3-HMAC-SHA256", source_lang, target_lang⟩

/-- The module-level helper `sign(key, msg)`: HMAC-SHA256 of the UTF-8
bytes of `msg` under the raw-byte key, returning the raw digest. -/
def sign (key : List Nat) (msg : String) : List Nat :=
  hmacSha256 key (utf8Bytes msg)

/-- The method `TencentTranslate.create_signature(date, service)`: the chained
TC3 signing-key derivation. -/
def TencentTranslate.create_signature
    (self : TencentTranslate) (date service : String) : List Nat :=
  let secret_date := sign (utf8Bytes ("TC3" ++ self.secret_key)) date
  let secret_service := sign secret_date service
  let secret_signing := sign secret_service "tc3_request"
  secret_signing

/-- The `ct` local of `_prepare_headers`. -/
def contentTypeCT : String := "application/json; charset=utf-8"

/-- The `canonical_headers` local of `_prepare_headers`:
`f"content-type:{ct}\nhost:{self.host}\nx-tc-action:{self.action.lower()}\n"`. -/
def TencentTranslate.canonical_headers (self : TencentTranslate) : String :=
  "content-type:" ++ contentTypeCT ++ "\n" ++ "host:" ++ self.host ++ "\n"
    ++ "x-tc-action:" ++ self.action.toLower ++ "\n"

/-- The `signed_headers` local of `_prepare_headers`. -/
def signedHeadersList : String := "content-type;host;x-tc-action"

/-- The `canonical_request` local of `_prepare_headers`: `"\n".join` of
method, URI, query string, canonical headers, signed headers, and the
hex SHA-256 of the payload. -/
def TencentTranslate.canonical_request
    (self : TencentTranslate) (payload : String) : String :=
  joinWith "\n"
    ["POST", "/", "", self.canonical_headers, signedHeadersList,
     sha256Hex (utf8Bytes payload)]

/-- The `credential_scope` local of `_prepare_headers`:
`f"{date}/{self.service}/tc3_request"`. -/
def TencentTranslate.credential_scope
    (self : TencentTranslate) (date : String) : String :=
  date ++ "/" ++ self.service ++ "/tc3_request"

/-- The `string_to_sign` local of `_prepare_headers`: algorithm, timestamp,
credential scope, and the hex SHA-256 of the canonical request, joined by
newlines. -/
def TencentTranslate.string_to_sign
    (self : TencentTranslate) (payload : String) (timestamp : Nat)
    (date : String) : String :=
  self.algorithm ++ "\n" ++ toString timestamp ++ "\n"
    ++ self.credential_scope date ++ "\n"
    ++ sha256Hex (utf8Bytes (self.canonical_request payload))

/-- The `signature` local of `_prepare_headers`: hex HMAC-SHA256 of the
string-to-sign under the key from `create_signature`. -/
def TencentTranslate.signature_hex
    (self : TencentTranslate) (payload : String) (timestamp : Nat)
    (date : String) : String :=
  hmacSha256Hex (self.create_signature date self.service)
    (utf8Bytes (self.string_to_sign payload timestamp date))

/-- The `authorization` local of `_prepare_headers`. -/
def TencentTranslate.authorization
    (self : TencentTranslate) (payload : String) (timestamp : Nat)
    (date : String) : String :=
  self.algorithm ++ " Credential=" ++ self.secret_id ++ "/"
    ++ self.credential_scope date ++ ", SignedHeaders=" ++ signedHeadersList
    ++ ", Signature=" ++ self.signature_hex payload timestamp date

/-- The method `TencentTranslate._prepare_headers(payload, timestamp, date)`: the
header dict, as an association list in insertion order; `X-TC-Region` and
`X-TC-Token` are added only when the region / token strings are truthy
(non-empty). -/
def TencentTranslate._prepare_headers
    (self : TencentTranslate) (payload : String) (timestamp : Nat)
    (date : String) : List (String × String) :=
  [("Authorization", self.authorization payload timestamp date),
   ("Content-Type", contentTypeCT),
   ("Host", self.host),
   ("X-TC-Action", self.action),
   ("X-TC-Timestamp", toString timestamp),
   ("X-TC-Version", self.version)]
  ++ (if self.region ≠ "" then [("X-TC-Region", self.region)] else [])
  ++ (if self.token ≠ "" then [("X-TC-Token", self.token)] else [])

/-- The `payload` local of `translate`: `json.dumps` (default separators,
insertion order `SourceText`, `Source`, `Target`, `ProjectId`) of the
request dict. -/
def TencentTranslate.translatePayload
    (self : TencentTranslate) (text : String) : String :=
  "\x7b\"SourceText\": " ++ pyJsonString text
    ++ ", \"Source\": " ++ pyJsonString self.source_lang
    ++ ", \"Target\": " ++ pyJsonString self.target_lang
    ++ ", \"ProjectId\": 0\x7d"

/-- Everything observable about one `translate(text)` call: the payload it
serialized, the headers it prepared, its result (returned value or escaped
exception), and the log records it emitted, in order. -/
structure TranslateOutcome where
  payload : String
  headers : List (String × String)
  result : Except PyErr Json
  logs : List LogEvent

/-- The method `TencentTranslate.translate(text)`. The ambient effects are passed in:
`now` is `int(time.time())` and `httpResult` is the combined outcome of
`httpx.post` plus `response.json()` (the value `res`, or the exception the
transport or JSON decoding raised). On an exception anywhere in the `try`
block the handler logs it at critical level and re-raises it. -/
def TencentTranslate.translate
    (self : TencentTranslate) (text : String) (now : Nat)
    (httpResult : Except PyErr Json) : TranslateOutcome :=
  let timestamp := now
  let date := utcDateString timestamp
  let payload := self.translatePayload text
  let headers := self._prepare_headers payload timestamp date
  match httpResult with
  | Except.error e => ⟨payload, headers, Except.error e, [LogEvent.critical e]⟩
  | Except.ok res =>
      match extractTargetText res with
      | Except.ok v => ⟨payload, headers, Except.ok v, [LogEvent.info res]⟩
      | Except.error e =>
          ⟨payload, headers, Except.error e, [LogEvent.info res, LogEvent.critical e]⟩

namespace TC3Ref

/-- Modelled from the spec: the canonical headers string, the
"fixed newline-joined sequence" with content type
`application/json; charset=utf-8`, the host, and the lowercased action. -/
def canonicalHeaders (host action : String) : String :=
  "content-type:application/json; charset=utf-8\n" ++ "host:" ++ host
    ++ "\n" ++ "x-tc-action:" ++ action.toLower ++ "\n"

/-- Modelled from the spec: the canonical request, "newline-joined POST,
URI path /, empty query string, canonical headers string, signed-headers
list content-type;host;x-tc-action, and the lowercase hex SHA-256 digest
of the payload bytes". -/
def canonicalRequest (host action payload : String) : String :=
  joinWith "\n"
    ["POST", "/", "", canonicalHeaders host action,
     "content-type;host;x-tc-action", sha256Hex (utf8Bytes payload)]

/-- Modelled from the spec: the credential scope
`<date>/<service>/tc3_request`. -/
def credentialScope (date service : String) : String :=
  date ++ "/" ++ service ++ "/tc3_request"

/-- Modelled from the spec: the string-to-sign, "newline-joined algorithm
identifier, Unix timestamp, credential scope, lowercase hex SHA-256 digest
of the canonical request". -/
def stringToSign (algorithm : String) (timestamp : Nat)
    (scope canonicalReq : String) : String :=
  joinWith "\n"
    [algorithm, toString timestamp, scope, sha256Hex (utf8Bytes canonicalReq)]

/-- Modelled from the spec: the signing-key derivation
"k1 = HMAC(TC3 + secret_key, date), k2 = HMAC(k1, service_name),
k3 = HMAC(k2, tc3_request)", each HMAC-SHA256 producing raw bytes used as
the key of the next. -/
def signingKey (secretKey date service : String) : List Nat :=
  hmacSha256
    (hmacSha256
      (hmacSha256 (utf8Bytes ("TC3" ++ secretKey)) (utf8Bytes date))
      (utf8Bytes service))
    (utf8Bytes "tc3_request")

/-- Modelled from the spec: the final signature, "lowercase hex HMAC-SHA256
of the string-to-sign, keyed with k3". -/
def finalSignature (secretKey date service sts : String) : String :=
  hmacSha256Hex (signingKey secretKey date service) (utf8Bytes sts)

end TC3Ref

/-- The round-trip scenario's client: secret id `AKID`, secret key
`secret`, no token, default region and languages. -/
def rtClient : TencentTranslate :=
  TencentTranslate.init "AKID" "secret" "" "ap-guangzhou" "zh" "ja"

/-- The round-trip scenario's fixed payload string. -/
def rtPayload : String :=
  "\x7b\"SourceText\":\"hello\",\"Source\":\"zh\",\"Target\":\"ja\",\"ProjectId\":0\x7d"

/-- Strings are equal when their character lists are. -/
theorem strOfData {a b : String} (h : a.data = b.data) : a = b := by
  cases a
  cases b
  exact congrArg String.mk h

/-- The character list of a concatenation is the concatenation of the
character lists. -/
theorem strDataAppend (a b : String) : (a ++ b).data = a.data ++ b.data := rfl

/-- Sanity check: the embedded SHA-256 matches the FIPS 180-4 test vector
for `"abc"`. -/
theorem sha256_abc_vector :
    sha256Hex (utf8Bytes "abc") =
      "ba7816bf8f01cfea414140de5dae2223b00361a396177a9cb410ff61f20015ad" := by
  rfl

/-- C1: `create_signature(date, service)` is the three-fold chained
HMAC-SHA256 derivation ending in the `tc3_request` scope. -/
theorem create_signature_chained_hmac (self : TencentTranslate)
    (date service : String) :
    self.create_signature date service =
      hmacSha256
        (hmacSha256
          (hmacSha256 (utf8Bytes ("TC3" ++ self.secret_key)) (utf8Bytes date))
          (utf8Bytes service))
        (utf8Bytes "tc3_request") := rfl

/-- C9: a transport or JSON-parse exception is logged at critical level and
re-raised unchanged: `translate` returns exactly that error and emits
exactly one critical log record carrying it. -/
theorem translate_propagates_transport_error (self : TencentTranslate)
    (text : String) (now : Nat) (e : PyErr) :
    (self.translate text now (Except.error e)).result = Except.error e ∧
    (self.translate text now (Except.error e)).logs = [LogEvent.critical e] :=
  ⟨rfl, rfl⟩

/-- C10: the Authorization value is independent of the session token and the
region: clients differing only in those fields produce identical
Authorization headers. -/
theorem authorization_independent_of_token_region
    (sid skey sl tl tok1 reg1 tok2 reg2 payload : String) (ts : Nat) (date : String) :
    (TencentTranslate.init sid skey tok1 reg1 sl tl).authorization payload ts date =
      (TencentTranslate.init sid skey tok2 reg2 sl tl).authorization payload ts date ∧
    ((TencentTranslate.init sid skey tok1 reg1 sl tl)._prepare_headers payload ts date).lookup "Authorization" =
      ((TencentTranslate.init sid skey tok2 reg2 sl tl)._prepare_headers payload ts date).lookup "Authorization" :=
  ⟨rfl, rfl⟩

/-- On a received and parsed response, `translate` returns exactly what the
extraction expression produces (value or escaped exception). -/
theorem translate_ok_result (self : TencentTranslate) (text : String)
    (now : Nat) (res : Json) :
    (self.translate text now (Except.ok res)).result = extractTargetText res := by
  cases h : extractTargetText res <;>
    simp [TencentTranslate.translate, h]

/-- C8 counterexample: a parsed JSON object whose `Response` value is a
string is not tolerated: `translate` raises (an `AttributeError` escapes)
instead of returning the fallback string. -/
theorem response_nonobject_raises_cex :
    ((TencentTranslate.init "AKID" "secret" "" "ap-guangzhou" "zh" "ja").translate
        "hello" 0 (Except.ok (Json.obj [("Response", Json.str "oops")]))).result =
      Except.error (PyErr.attributeError "str") ∧
    ((TencentTranslate.init "AKID" "secret" "" "ap-guangzhou" "zh" "ja").translate
        "hello" 0 (Except.ok (Json.obj [("Response", Json.str "oops")]))).result ≠
      Except.ok (Json.str "Translation failed") :=
  ⟨rfl, fun h => Except.noConfusion h⟩

/-- C8 amended: the tolerance is exactly dict-shaped: on a parsed JSON value,
`translate` returns the `TargetText` value when the top level is an object
whose `Response` value is an object containing it, the fallback string when
`Response` is absent or an object without `TargetText`, and raises an
`AttributeError` (logged and re-raised) when the top level is not an object
or `Response` is present with a non-object value. -/
theorem translate_result_characterization (self : TencentTranslate)
    (text : String) (now : Nat) (res : Json) :
    (self.translate text now (Except.ok res)).result =
      match res with
      | Json.obj fs =>
          match fs.lookup "Response" with
          | none => Except.ok (Json.str "Translation failed")
          | some (Json.obj gs) =>
              Except.ok ((gs.lookup "TargetText").getD (Json.str "Translation failed"))
          | some v => Except.error (PyErr.attributeError v.pyTypeName)
      | other => Except.error (PyErr.attributeError other.pyTypeName) := by
  rw [translate_ok_result]
  cases res <;> simp [extractTargetText, pyGet]
  case obj fs =>
    cases h : fs.lookup "Response" with
    | none => simp
    | some v => cases v <;> simp [pyGet, Json.pyTypeName]

/-- C7: a parsed JSON object with no `Response` key, or whose `Response`
object lacks `TargetText`, makes `translate` return the literal fallback
string `"Translation failed"` without raising. -/
theorem translate_missing_field_fallback (self : TencentTranslate)
    (text : String) (now : Nat) (fs : List (String × Json))
    (h : fs.lookup "Response" = none ∨
      ∃ gs, fs.lookup "Response" = some (Json.obj gs) ∧
        gs.lookup "TargetText" = none) :
    (self.translate text now (Except.ok (Json.obj fs))).result =
      Except.ok (Json.str "Translation failed") := by
  rw [translate_ok_result]
  rcases h with h | ⟨gs, h1, h2⟩
  · simp [extractTargetText, pyGet, h]
  · simp [extractTargetText, pyGet, h1, h2]

/-- C7 witness: the empty JSON object has no `Response` key, and on it a
concrete client's `translate` returns the fallback string. -/
theorem translate_missing_field_fallback_witness :
    (List.lookup "Response" ([] : List (String × Json)) = none) ∧
    ((TencentTranslate.init "AKID" "secret" "" "ap-guangzhou" "zh" "ja").translate
        "hello" 0 (Except.ok (Json.obj []))).result =
      Except.ok (Json.str "Translation failed") :=
  ⟨rfl,
   translate_missing_field_fallback
     (TencentTranslate.init "AKID" "secret" "" "ap-guangzhou" "zh" "ja")
     "hello" 0 [] (Or.inl rfl)⟩

/-- C2: the canonical request hashed for signing is the newline-joined
sequence of the method `POST`, the URI path `/`, the empty query string,
the canonical headers string (content type, host, lowercased action), the
signed-headers list, and the lowercase hex SHA-256 of the payload bytes;
the string-to-sign hashes exactly this canonical request. -/
theorem canonical_request_format (self : TencentTranslate) (payload : String)
    (timestamp : Nat) (date : String) :
    self.canonical_request payload =
      "POST" ++ "\n" ++ "/" ++ "\n" ++ "" ++ "\n"
        ++ ("content-type:application/json; charset=utf-8" ++ "\n"
            ++ "host:" ++ self.host ++ "\n"
            ++ "x-tc-action:" ++ self.action.toLower ++ "\n") ++ "\n"
        ++ "content-type;host;x-tc-action" ++ "\n"
        ++ sha256Hex (utf8Bytes payload) ∧
    self.string_to_sign payload timestamp date =
      self.algorithm ++ "\n" ++ toString timestamp ++ "\n"
        ++ self.credential_scope date ++ "\n"
        ++ sha256Hex (utf8Bytes (self.canonical_request payload)) := by
  constructor
  · apply strOfData
    simp only [TencentTranslate.canonical_request, TencentTranslate.canonical_headers,
      contentTypeCT, signedHeadersList, joinWith, List.foldl,
      strDataAppend, List.append_assoc]
    rfl
  · rfl

/-- C3: the string-to-sign is the newline-joined algorithm identifier
`TC3-HMAC-SHA256`, decimal timestamp, credential scope
`<date>/<service>/tc3_request`, and hex SHA-256 of the canonical request;
and the produced Authorization header value is exactly
`<algorithm> Credential=<secret_id>/<scope>, SignedHeaders=<signed_headers>,
Signature=<hex HMAC-SHA256 of the string-to-sign keyed with k3>`. -/
theorem string_to_sign_and_authorization_format
    (sid skey tok reg sl tl payload : String) (ts : Nat) (date : String) :
    (TencentTranslate.init sid skey tok reg sl tl).string_to_sign payload ts date =
      "TC3-HMAC-SHA256" ++ "\n" ++ toString ts ++ "\n"
        ++ (date ++ "/" ++ "tmt" ++ "/tc3_request") ++ "\n"
        ++ sha256Hex (utf8Bytes
            ((TencentTranslate.init sid skey tok reg sl tl).canonical_request payload)) ∧
    ((TencentTranslate.init sid skey tok reg sl tl)._prepare_headers payload ts date).lookup
        "Authorization" =
      some ("TC3-HMAC-SHA256" ++ " Credential=" ++ sid ++ "/"
        ++ (date ++ "/" ++ "tmt" ++ "/tc3_request")
        ++ ", SignedHeaders=" ++ "content-type;host;x-tc-action"
        ++ ", Signature="
        ++ hmacSha256Hex
            ((TencentTranslate.init sid skey tok reg sl tl).create_signature date "tmt")
            (utf8Bytes
              ((TencentTranslate.init sid skey tok reg sl tl).string_to_sign payload ts date))) := by
  constructor
  · apply strOfData
    simp only [TencentTranslate.string_to_sign, TencentTranslate.credential_scope,
      TencentTranslate.init, strDataAppend, List.append_assoc]
  · show some _ = some _
    refine congrArg some ?_
    apply strOfData
    simp only [TencentTranslate.authorization, TencentTranslate.credential_scope,
      TencentTranslate.signature_hex, signedHeadersList,
      TencentTranslate.init, strDataAppend, List.append_assoc]

/-- C4: `translate` signs with the date derived from the very timestamp it
sends: the headers of a call at time `now` are those of `_prepare_headers`
applied to `now` and the UTC date string of `now`, and the `X-TC-Timestamp`
header holds the decimal rendering of that same `now`. -/
theorem translate_date_matches_timestamp (self : TencentTranslate)
    (text : String) (now : Nat) (http : Except PyErr Json) :
    (self.translate text now http).headers =
      self._prepare_headers (self.translatePayload text) now (utcDateString now) ∧
    ("X-TC-Timestamp", toString now) ∈ (self.translate text now http).headers := by
  have h1 : (self.translate text now http).headers =
      self._prepare_headers (self.translatePayload text) now (utcDateString now) := by
    cases http with
    | error e => rfl
    | ok res => cases h : extractTargetText res <;> simp [TencentTranslate.translate, h]
  refine ⟨h1, ?_⟩
  rw [h1]
  simp [TencentTranslate._prepare_headers]

/-- C6: `_prepare_headers` always contains the six mandatory headers (with
`X-TC-Timestamp` carrying the decimal seconds used in signing), contains
`X-TC-Region` exactly when the region is non-empty, and contains
`X-TC-Token` exactly when a token was supplied. -/
theorem prepare_headers_presence (self : TencentTranslate) (payload : String)
    (ts : Nat) (date : String) :
    (("Authorization", self.authorization payload ts date) ∈
        self._prepare_headers payload ts date ∧
      ("Content-Type", contentTypeCT) ∈ self._prepare_headers payload ts date ∧
      ("Host", self.host) ∈ self._prepare_headers payload ts date ∧
      ("X-TC-Action", self.action) ∈ self._prepare_headers payload ts date ∧
      ("X-TC-Timestamp", toString ts) ∈ self._prepare_headers payload ts date ∧
      ("X-TC-Version", self.version) ∈ self._prepare_headers payload ts date) ∧
    ((∃ v, ("X-TC-Region", v) ∈ self._prepare_headers payload ts date) ↔
      self.region ≠ "") ∧
    ((∃ v, ("X-TC-Token", v) ∈ self._prepare_headers payload ts date) ↔
      self.token ≠ "") := by
  by_cases hr : self.region = "" <;> by_cases ht : self.token = "" <;>
    simp [TencentTranslate._prepare_headers, hr, ht]

/-- C5: on the fixed round-trip inputs the derived UTC date is
`2023-11-14`, and the canonical request, string-to-sign, and final hex
signature of the pipeline equal the values of the independent reference
implementation of TC3-HMAC-SHA256. -/
theorem roundtrip_matches_reference :
    utcDateString 1700000000 = "2023-11-14" ∧
    rtClient.canonical_request rtPayload =
      TC3Ref.canonicalRequest "tmt.tencentcloudapi.com" "TextTranslate" rtPayload ∧
    rtClient.string_to_sign rtPayload 1700000000 "2023-11-14" =
      TC3Ref.stringToSign "TC3-HMAC-SHA256" 1700000000
        (TC3Ref.credentialScope "2023-11-14" "tmt")
        (TC3Ref.canonicalRequest "tmt.tencentcloudapi.com" "TextTranslate" rtPayload) ∧
    rtClient.signature_hex rtPayload 1700000000 "2023-11-14" =
      TC3Ref.finalSignature "secret" "2023-11-14" "tmt"
        (TC3Ref.stringToSign "TC3-HMAC-SHA256" 1700000000
          (TC3Ref.credentialScope "2023-11-14" "tmt")
          (TC3Ref.canonicalRequest "tmt.tencentcloudapi.com" "TextTranslate" rtPayload)) := by
  have hcr : rtClient.canonical_request rtPayload =
      TC3Ref.canonicalRequest "tmt.tencentcloudapi.com" "TextTranslate" rtPayload := by
    apply strOfData
    simp only [TencentTranslate.canonical_request, TencentTranslate.canonical_headers,
      contentTypeCT, signedHeadersList, TC3Ref.canonicalRequest, TC3Ref.canonicalHeaders,
      show rtClient.host = "tmt.tencentcloudapi.com" from rfl,
      show rtClient.action = "TextTranslate" from rfl,
      joinWith, List.foldl, strDataAppend, List.append_assoc]
    rfl
  have hsts : rtClient.string_to_sign rtPayload 1700000000 "2023-11-14" =
      TC3Ref.stringToSign "TC3-HMAC-SHA256" 1700000000
        (TC3Ref.credentialScope "2023-11-14" "tmt")
        (TC3Ref.canonicalRequest "tmt.tencentcloudapi.com" "TextTranslate" rtPayload) := by
    have h3 : sha256Hex (utf8Bytes (rtClient.canonical_request rtPayload)) =
        sha256Hex (utf8Bytes
          (TC3Ref.canonicalRequest "tmt.tencentcloudapi.com" "TextTranslate" rtPayload)) :=
      congrArg (fun s => sha256Hex (utf8Bytes s)) hcr
    apply strOfData
    simp only [TencentTranslate.string_to_sign, TencentTranslate.credential_scope,
      h3, TC3Ref.stringToSign, TC3Ref.credentialScope,
      show rtClient.algorithm = "TC3-HMAC-SHA256" from rfl,
      show rtClient.service = "tmt" from rfl,
      joinWith, List.foldl, strDataAppend, List.append_assoc]
  refine ⟨by decide, hcr, hsts, ?_⟩
  have hkey : rtClient.create_signature "2023-11-14" rtClient.service =
      TC3Ref.signingKey "secret" "2023-11-14" "tmt" := rfl
  exact congrArg₂ hmacSha256Hex hkey (congrArg utf8Bytes hsts)
